import Mathlib

/-!
Verification development for the ulpdsrd-backend record-management API.

The JavaScript controllers, middleware and Mongoose schemas are shallowly
embedded as pure Lean functions over explicit list-valued stores.

Modelling conventions:
* JavaScript strings are `String`; an absent (`undefined`) request field is
  `none : Option String` (resp. `Option Int` for numbers).
* JavaScript truthiness of a possibly-absent string is `truthyS`
  (absent or empty string is falsy); of a possibly-absent number `truthyI`
  (absent or zero is falsy).  `x || d` is `jsOrS` / `jsOrI`.
* JS numbers are modelled as `Int`; `NaN` branches guarded by `isNaN` on an
  already-numeric value are dead in the model and omitted.
* MongoDB ObjectIds are `Nat`; the store is a `List` of documents and
  `findOne` / `findById` are `List.find?`.  Mongoose string-schema `trim`
  setters are applied where the schema declares them, both on stored values
  and on query-filter values (Mongoose runs setters when casting filters).
  A filter key whose value is `undefined` is stripped by Mongoose, hence
  `none` matches every document.
* `save` runs the schema validators (numericGrade 0..100, yearCompleted
  1950..current year, semester enum) and then the unique compound index on
  (studentId, courseCode); either failure throws, modelled as `Except.error`.
* Time is a single `Int` parameter `now`; activity-log timestamps are
  measured in days so that the cleanup cutoff `now - days` matches the
  `setDate(getDate() - days)` computation of the source.
-/

/-- Shape of the JSON response bodies `{success, message}` plus HTTP status. -/
structure Resp where
  status : Nat
  success : Bool
  message : String
deriving DecidableEq

/-- Truthiness of a possibly-absent JS string: `undefined` and `""` are falsy. -/
def truthyS : Option String → Bool
  | none => false
  | some s => s != ""

/-- Truthiness of a possibly-absent JS number: `undefined` and `0` are falsy. -/
def truthyI : Option Int → Bool
  | none => false
  | some n => n != 0

/-- Whitespace trimming of the Mongoose string-schema setters, computed over
the character list so that concrete instances evaluate by `decide`. -/
def jsTrim (s : String) : String :=
  ⟨((s.data.dropWhile Char.isWhitespace).reverse.dropWhile Char.isWhitespace).reverse⟩

/-- JS `v || d` for possibly-absent strings. -/
def jsOrS (v : Option String) (d : String) : String :=
  if truthyS v then v.getD "" else d

/-- JS `v || d` for possibly-absent numbers. -/
def jsOrI (v : Option Int) (d : Int) : Int :=
  if truthyI v then v.getD 0 else d

/-- A student-record request body (`req.body` of the student endpoints). -/
structure Payload where
  studentId : Option String
  studentName : Option String
  courseCode : Option String
  grade : Option String
  numericGrade : Option Int
  instructor : Option String
  yearCompleted : Option Int
  semester : Option String
  updatedBy : Option Nat
deriving DecidableEq

/-- A stored StudentRecord document (models/Student.js). -/
structure StudentRecord where
  oid : Nat
  studentId : String
  studentName : String
  courseCode : String
  grade : String
  numericGrade : Int
  instructor : String
  yearCompleted : Int
  semester : String
  updatedBy : Option Nat
deriving DecidableEq

/-- Equality filter on a string path: an `undefined` filter value is stripped
by Mongoose (matches everything); a present value is trimmed by the schema
setter before comparison. -/
def filterEqS (qv : Option String) (field : String) : Bool :=
  match qv with
  | none => true
  | some s => field == jsTrim s

/-- `StudentRecord.findOne({studentId, courseCode})`. -/
def findOnePair (st : List StudentRecord) (sid cid : Option String) :
    Option StudentRecord :=
  st.find? (fun r => filterEqS sid r.studentId && filterEqS cid r.courseCode)

/-- `StudentRecord.findOne({studentId, courseCode, _id: {$ne: id}})`. -/
def findOnePairExcl (st : List StudentRecord) (sid cid : Option String)
    (excl : Nat) : Option StudentRecord :=
  st.find? (fun r =>
    filterEqS sid r.studentId && filterEqS cid r.courseCode && r.oid != excl)

/-- `StudentRecord.findById(id)`. -/
def findById (st : List StudentRecord) (i : Nat) : Option StudentRecord :=
  st.find? (fun r => r.oid == i)

/-- Mongoose validators of StudentRecordSchema run on `save`
(models/Student.js: numericGrade min 0 max 100, yearCompleted min 1950 max
current year, semester enum First/Second/Third). -/
def saveValidate (curYear : Int) (r : StudentRecord) : Option String :=
  if r.numericGrade < 0 then some "Numeric grade cannot be less than 0"
  else if r.numericGrade > 100 then some "Numeric grade cannot be more than 100"
  else if r.yearCompleted < 1950 then some "Year must be after 1950"
  else if r.yearCompleted > curYear then some "Year cannot be in the future"
  else if r.semester == "First" || r.semester == "Second" || r.semester == "Third"
  then none
  else some "semester is not a valid enum value"

/-- `save()` of a freshly constructed document: schema validation, then the
unique compound index on (studentId, courseCode) (models/Student.js line 59),
then insertion. -/
def saveNew (curYear : Int) (st : List StudentRecord) (r : StudentRecord) :
    Except String (List StudentRecord) :=
  match saveValidate curYear r with
  | some e => .error e
  | none =>
    if st.any (fun x => x.studentId == r.studentId && x.courseCode == r.courseCode)
    then .error "E11000 duplicate key error"
    else .ok (st ++ [r])

/-- `save()` of a fetched-and-mutated document: schema validation, the unique
index against every other document, then in-place replacement. -/
def saveExisting (curYear : Int) (st : List StudentRecord) (r : StudentRecord) :
    Except String (List StudentRecord) :=
  match saveValidate curYear r with
  | some e => .error e
  | none =>
    if st.any (fun x =>
        x.oid != r.oid && x.studentId == r.studentId && x.courseCode == r.courseCode)
    then .error "E11000 duplicate key error"
    else .ok (st.map (fun x => if x.oid == r.oid then r else x))

/-- The `new StudentRecord({...})` construction of `createRecord`
(studentController.js lines 167-176): `|| ''` / `|| 'Unknown'` /
`|| current year` / `|| 'First'` defaults and `!== undefined ? _ : 70` for
numericGrade; schema trim setters applied to the string paths. -/
def mkNewRecord (curYear : Int) (nextId : Nat) (p : Payload) : StudentRecord :=
  { oid := nextId
    studentId := jsTrim (jsOrS p.studentId "")
    studentName := jsTrim (jsOrS p.studentName "")
    courseCode := jsTrim (jsOrS p.courseCode "")
    grade := jsTrim (jsOrS p.grade "")
    numericGrade := p.numericGrade.getD 70
    instructor := jsTrim (jsOrS p.instructor "Unknown")
    yearCompleted := jsOrI p.yearCompleted curYear
    semester := jsTrim (jsOrS p.semester "First")
    updatedBy := none }

/-- `createRecord` (studentController.js lines 140-192): duplicate pre-check by
(studentId, courseCode), then construct-with-defaults and save.  Returns the
response, the store and the next fresh id. -/
def createRecord (curYear : Int) (st : List StudentRecord) (nextId : Nat)
    (p : Payload) : Resp × List StudentRecord × Nat :=
  if (findOnePair st p.studentId p.courseCode).isSome then
    (⟨400, false, "A record for this student and course already exists"⟩, st, nextId)
  else
    match saveNew curYear st (mkNewRecord curYear nextId p) with
    | .ok st2 => (⟨201, true, "Student record created successfully"⟩, st2, nextId + 1)
    | .error _ => (⟨500, false, "Error creating student record"⟩, st, nextId)

/-- The field-assignment block of `updateRecord` (studentController.js lines
242-249): `record.f = payloadF || record.f` for the string and year fields,
`record.numericGrade = numericGrade !== undefined ? numericGrade :
record.numericGrade`; assigned values pass through the schema trim setters. -/
def applyUpdate (record : StudentRecord) (p : Payload) : StudentRecord :=
  { record with
    studentId :=
      if truthyS p.studentId then jsTrim (p.studentId.getD "") else record.studentId
    studentName :=
      if truthyS p.studentName then jsTrim (p.studentName.getD "") else record.studentName
    courseCode :=
      if truthyS p.courseCode then jsTrim (p.courseCode.getD "") else record.courseCode
    grade := if truthyS p.grade then jsTrim (p.grade.getD "") else record.grade
    numericGrade := p.numericGrade.getD record.numericGrade
    instructor :=
      if truthyS p.instructor then jsTrim (p.instructor.getD "") else record.instructor
    yearCompleted := jsOrI p.yearCompleted record.yearCompleted
    semester :=
      if truthyS p.semester then jsTrim (p.semester.getD "") else record.semester }

/-- The save-and-respond tail of `updateRecord`. -/
def updateRecordSave (curYear : Int) (st : List StudentRecord)
    (record : StudentRecord) (p : Payload) : Resp × List StudentRecord :=
  match saveExisting curYear st (applyUpdate record p) with
  | .ok st2 => (⟨200, true, "Student record updated successfully"⟩, st2)
  | .error _ => (⟨500, false, "Error updating student record"⟩, st)

/-- `updateRecord` (studentController.js lines 199-267): 404 when the id is
absent; the duplicate re-check runs only when the payload supplies BOTH
studentId and courseCode (truthy) and at least one differs from the stored
document; then the field-assignment block and save. -/
def updateRecord (curYear : Int) (st : List StudentRecord) (i : Nat)
    (p : Payload) : Resp × List StudentRecord :=
  match findById st i with
  | none => (⟨404, false, "Student record not found"⟩, st)
  | some record =>
    if truthyS p.studentId && truthyS p.courseCode &&
        (((p.studentId.getD "") != record.studentId) ||
         ((p.courseCode.getD "") != record.courseCode)) then
      if (findOnePairExcl st p.studentId p.courseCode i).isSome then
        (⟨400, false, "A record for this student and course already exists"⟩, st)
      else updateRecordSave curYear st record p
    else updateRecordSave curYear st record p

/-- `validateStudentRecord` (middleware/validation.js): the full error list,
in push order.  The `isNaN` branches are dead in the integer model. -/
def validateStudentRecord (curYear : Int) (p : Payload) : List String :=
  (if truthyS p.studentId then [] else ["Student ID is required"]) ++
  (if truthyS p.studentName then [] else ["Student name is required"]) ++
  (if truthyS p.courseCode then [] else ["Course code is required"]) ++
  (if truthyS p.grade then [] else ["Grade is required"]) ++
  (if p.numericGrade.isNone then ["Numeric grade is required"] else []) ++
  (if truthyS p.instructor then [] else ["Instructor is required"]) ++
  (if truthyI p.yearCompleted then [] else ["Year completed is required"]) ++
  (if truthyS p.semester then [] else ["Semester is required"]) ++
  (if truthyI p.yearCompleted ∧
      (p.yearCompleted.getD 0 < 1950 ∨ p.yearCompleted.getD 0 > curYear) then
    [s!"Year completed must be between 1950 and {curYear}"] else []) ++
  (if p.numericGrade.isSome ∧
      (p.numericGrade.getD 0 < 0 ∨ p.numericGrade.getD 0 > 100) then
    ["Numeric grade must be between 0 and 100"] else []) ++
  (if truthyS p.semester ∧
      ¬(["First", "Second", "Third", "1", "2", "3"].contains (p.semester.getD ""))
  then ["Semester must be one of: First, Second, Third, 1, 2, 3"] else [])

/-- The PUT /students/:id pipeline: `validationMiddleware.validateStudentRecord`
then `studentController.updateRecord` (routes/studentRoutes.js). -/
def updateRecordEndpoint (curYear : Int) (st : List StudentRecord) (i : Nat)
    (p : Payload) : Resp × List StudentRecord :=
  if validateStudentRecord curYear p = [] then updateRecord curYear st i p
  else (⟨400, false, "Validation error"⟩, st)

/-- `deleteRecord` (studentController.js lines 274-298):
`findByIdAndDelete`, 404 when absent. -/
def deleteRecord (st : List StudentRecord) (i : Nat) : Resp × List StudentRecord :=
  match findById st i with
  | none => (⟨404, false, "Student record not found"⟩, st)
  | some _ =>
    (⟨200, true, "Student record deleted successfully"⟩,
     st.filter (fun r => r.oid != i))

/-- Role resolution of the `isAdmin` middleware (middleware/auth.js):
`req.body.userType || req.query.userType || req.headers[user-type] ||
'instructor'`. -/
def middlewareUserType (body query header : Option String) : String :=
  if truthyS body then body.getD ""
  else if truthyS query then query.getD ""
  else if truthyS header then header.getD ""
  else "instructor"

/-- `isAdmin` gate decision: pass exactly when the resolved role is admin. -/
def isAdminGate (body query header : Option String) : Bool :=
  middlewareUserType body query header == "admin"

/-- DELETE /students/:id as wired at routes/studentRoutes.js line 38
("temporarily no auth for testing"): the controller runs with no gate,
whatever role the caller declares. -/
def deleteEndpointUnprotected (st : List StudentRecord) (i : Nat) :
    Resp × List StudentRecord :=
  deleteRecord st i

/-- DELETE /students/:id as wired in the isAdmin-protected route variants
(routes/studentRoutes.js line 77, unnamed/part_006 line 36):
`authMiddleware.isAdmin` then the controller. -/
def deleteEndpointAdminOnly (st : List StudentRecord) (i : Nat)
    (body query header : Option String) : Resp × List StudentRecord :=
  if isAdminGate body query header then deleteRecord st i
  else (⟨403, false, "Admin access required"⟩, st)

/-! ### Safe-regex text filters of `getAllRecords` (unnamed/part_002) -/

/-- The character class escaped by `createSafeRegex`:
`term.replace(/[-\/\\^$*+?.()|[\]\x7b\x7d]/g, backslash-dollar-amp)`. -/
def isRegexMeta (c : Char) : Bool :=
  c == '-' || c == '/' || c == '\\' || c == '^' || c == '$' || c == '*' ||
  c == '+' || c == '?' || c == '.' || c == '(' || c == ')' || c == '|' ||
  c == '[' || c == ']' || c == '{' || c == '}'

/-- The ECMAScript SyntaxCharacter set: the characters that carry regex
meaning (or are ill-formed) when they appear unescaped in a pattern. -/
def isRegexSyntaxChar (c : Char) : Bool :=
  c == '^' || c == '$' || c == '\\' || c == '.' || c == '*' || c == '+' ||
  c == '?' || c == '(' || c == ')' || c == '[' || c == ']' || c == '{' ||
  c == '}' || c == '|'

/-- The escaping loop of `createSafeRegex`: a backslash is inserted before
every occurrence of a character of the escaped class. -/
def escapeRegexChars : List Char → List Char
  | [] => []
  | c :: cs =>
    if isRegexMeta c then '\\' :: c :: escapeRegexChars cs
    else c :: escapeRegexChars cs

/-- `createSafeRegex(term)` (unnamed/part_002 lines 276-279): the source text
of the regex handed to `new RegExp(escapedTerm, i-flag)`. -/
def createSafeRegex (term : String) : List Char :=
  escapeRegexChars term.toList

/-- Decode a regex source that denotes a literal string: escaped characters of
the escaped class stand for themselves, ordinary characters stand for
themselves, and a pattern using any unescaped syntax character (or any other
escape) is not a literal and yields `none`. -/
def literalOfPattern : List Char → Option (List Char)
  | [] => some []
  | c :: rest =>
    if c == '\\' then
      match rest with
      | [] => none
      | d :: rest2 =>
        if isRegexMeta d then (literalOfPattern rest2).map (d :: ·) else none
    else if isRegexSyntaxChar c then none
    else (literalOfPattern rest).map (c :: ·)

/-- Does `needle` occur at the head of `hay`? -/
def leadMatch : List Char → List Char → Bool
  | [], _ => true
  | _ :: _, [] => false
  | c :: cs, d :: ds => c == d && leadMatch cs ds

/-- Does `needle` occur anywhere inside `hay`? -/
def subMatch (needle : List Char) : List Char → Bool
  | [] => leadMatch needle []
  | d :: ds => leadMatch needle (d :: ds) || subMatch needle ds

/-- ASCII-style case folding of a character sequence. -/
def foldCase (l : List Char) : List Char := l.map Char.toLower

/-- Case-insensitive literal containment: does `hay` contain `needle`
up to case? -/
def containsCI (hay needle : List Char) : Bool :=
  subMatch (foldCase needle) (foldCase hay)

/-- Semantics of `new RegExp(pattern, i-flag).test(input)` for the literal
patterns the controller builds: `none` when the pattern is not a pure
literal, otherwise case-insensitive containment of the denoted literal. -/
def regexTestI (pattern : List Char) (input : String) : Option Bool :=
  (literalOfPattern pattern).map (fun lit => containsCI input.toList lit)

/-- One text filter of `getAllRecords` (unnamed/part_002 lines 282-300): an
absent query key imposes no constraint, a present one is matched through
`createSafeRegex`. -/
def textFilterCI (qv : Option String) (field : String) : Option Bool :=
  match qv with
  | none => some true
  | some t => regexTestI (createSafeRegex t) field

/-- The query-string filters of the GET /students list operation. -/
structure ListQuery where
  courseCode : Option String
  studentId : Option String
  studentName : Option String
  instructor : Option String
  grade : Option String
  yearCompleted : Option Int
  semester : Option String
deriving DecidableEq

/-- The complete filter predicate `getAllRecords` builds (unnamed/part_002
lines 270-305): safe-regex matching on the four text fields, exact matching
on grade, yearCompleted and semester; `none` if any regex were to throw. -/
def recordMatchesListFilter (q : ListQuery) (r : StudentRecord) : Option Bool := do
  let a ← textFilterCI q.courseCode r.courseCode
  let b ← textFilterCI q.studentId r.studentId
  let c ← textFilterCI q.studentName r.studentName
  let d ← textFilterCI q.instructor r.instructor
  pure (a && b && c && d &&
    (match q.grade with | none => true | some g => r.grade == g) &&
    (match q.yearCompleted with | none => true | some y => r.yearCompleted == y) &&
    (match q.semester with | none => true | some s => r.semester == s))

/-! ### Activity logs (unnamed/part_001 controller, unnamed/part_003 schema) -/

/-- Request body of POST /api/logs. -/
structure LogReq where
  user : Option String
  username : Option String
  userType : Option String
  action : Option String
  details : Option (List (String × String))
  ipAddress : Option String
deriving DecidableEq

/-- A stored ActivityLog document. -/
structure LogEntry where
  user : Option String
  username : Option String
  userType : Option String
  action : Option String
  details : List (String × String)
  ipAddress : Option String
  timestamp : Int
deriving DecidableEq

/-- Hexadecimal digit test for ObjectId validity. -/
def isHexDigit (c : Char) : Bool :=
  c.isDigit || ('a' ≤ c && c ≤ 'f') || ('A' ≤ c && c ≤ 'F')

/-- `mongoose.Types.ObjectId.isValid`: a 24-character hex string or any
12-character string. -/
def isValidObjectId (s : String) : Bool :=
  (s.length == 24 && s.toList.all isHexDigit) || s.length == 12

/-- The guard of unnamed/part_001 line 29:
`user && user !== 'unknown' && mongoose.Types.ObjectId.isValid(user)`. -/
def validUserRef (u : Option String) : Bool :=
  match u with
  | none => false
  | some s => s != "" && s != "unknown" && isValidObjectId s

/-- Mongoose validation of ActivityLogSchema on `save` (unnamed/part_003):
`user`, `username`, `userType` and `action` are all `required: true`; for the
string paths `required` also rejects the empty string. -/
def saveLog (e : LogEntry) : Option String :=
  if e.user.isNone then some "Path user is required"
  else if !truthyS e.username then some "Path username is required"
  else if !truthyS e.userType then some "Path userType is required"
  else if !truthyS e.action then some "Path action is required"
  else none

/-- `createLog` (unnamed/part_001 lines 15-53): include the user reference
only when valid, then construct and save; a save failure is caught and
answered with a 500. -/
def createLog (st : List LogEntry) (req : LogReq) (now : Int) :
    Resp × List LogEntry :=
  let userField := if validUserRef req.user then req.user else none
  let entry : LogEntry :=
    { user := userField
      username := req.username
      userType := req.userType
      action := req.action.map jsTrim
      details := req.details.getD []
      ipAddress := req.ipAddress.map jsTrim
      timestamp := now }
  match saveLog entry with
  | some _ => (⟨500, false, "Error creating activity log"⟩, st)
  | none => (⟨201, true, "Activity log created successfully"⟩, st ++ [entry])

/-- JS `parseInt` in base 10 on a trimmed string: optional sign followed by a
longest digit run; `none` models `NaN`. -/
def leadingNat (cs : List Char) : Option Nat :=
  let ds := cs.takeWhile Char.isDigit
  if ds.isEmpty then none
  else some (ds.foldl (fun a c => a * 10 + (c.toNat - 48)) 0)

/-- `parseInt(s)` (radix 10). -/
def jsParseInt (s : String) : Option Int :=
  match (jsTrim s).toList with
  | '-' :: rest => (leadingNat rest).map (fun n => -(n : Int))
  | '+' :: rest => (leadingNat rest).map (fun n => (n : Int))
  | cs => (leadingNat cs).map (fun n => (n : Int))

/-- `cleanupLogs` (unnamed/part_001 lines 201-224):
`days = parseInt(req.query.days) || 30`, cutoff `now - days` (timestamps in
days), `deleteMany({timestamp: {$lt: cutoff}})`; returns the deleted count
and the surviving store. -/
def cleanupLogs (st : List LogEntry) (now : Int) (daysQ : Option String) :
    Nat × List LogEntry :=
  let days := jsOrI (daysQ.bind jsParseInt) 30
  let cutoff := now - days
  ((st.filter (fun l => decide (l.timestamp < cutoff))).length,
   st.filter (fun l => !decide (l.timestamp < cutoff)))

/-! ### Users and login (models/User.js, controllers/authController.js) -/

/-- A stored User document (models/User.js); the password is the
(salt, hash) pair. -/
structure UserRec where
  oid : Nat
  username : String
  passwordHash : String
  passwordSalt : String
  userType : String
  name : String
  email : String
  lastLogin : Option Int
deriving DecidableEq

/-- The session payload `req.session.user` established on login. -/
structure SessionUser where
  oid : Nat
  username : String
  userType : String
  name : String
deriving DecidableEq

/-- Outcome of the login controller: response data, the user store (lastLogin
may be updated), the established session, and whether `verifyPassword` was
invoked at all. -/
structure LoginResult where
  status : Nat
  message : String
  users : List UserRec
  session : Option SessionUser
  passwordChecked : Bool
deriving DecidableEq

/-- `verifyPassword` (utils/crypto.js): recompute the digest over the stored
salt and compare; the one-way hash itself is an opaque parameter `hashF`. -/
def verifyPassword (hashF : String → String → String)
    (password storedHash storedSalt : String) : Bool :=
  hashF password storedSalt == storedHash

/-- `login` (controllers/authController.js lines 81-138):
`User.findOne({username, userType})`; 401 when no user holds that exact pair
(the password is never hashed), 401 after a failed password check, otherwise
lastLogin is set, the session established and 200 returned. -/
def login (hashF : String → String → String) (users : List UserRec)
    (username password userType : String) (now : Int) : LoginResult :=
  match users.find? (fun u => u.username == username && u.userType == userType) with
  | none => ⟨401, "Invalid credentials", users, none, false⟩
  | some user =>
    if verifyPassword hashF password user.passwordHash user.passwordSalt then
      ⟨200, "Login successful",
       users.map (fun u => if u.oid == user.oid then { u with lastLogin := some now } else u),
       some ⟨user.oid, user.username, user.userType, user.name⟩, true⟩
    else ⟨401, "Invalid credentials", users, none, true⟩

/-! ### Bulk upload (controllers/bulkUploadController.js) -/

/-- The update branch of the bulk loop (lines 40-46): studentName, grade,
numericGrade, instructor, yearCompleted, semester and updatedBy are merged
into the fetched document; studentId and courseCode are never touched. -/
def bulkUpdateExisting (existing : StudentRecord) (item : Payload) :
    StudentRecord :=
  { existing with
    studentName :=
      if truthyS item.studentName then jsTrim (item.studentName.getD "")
      else existing.studentName
    grade := if truthyS item.grade then jsTrim (item.grade.getD "") else existing.grade
    numericGrade := item.numericGrade.getD existing.numericGrade
    instructor :=
      if truthyS item.instructor then jsTrim (item.instructor.getD "")
      else existing.instructor
    yearCompleted := jsOrI item.yearCompleted existing.yearCompleted
    semester :=
      if truthyS item.semester then jsTrim (item.semester.getD "")
      else existing.semester
    updatedBy :=
      match item.updatedBy with
      | some v => some v
      | none => existing.updatedBy }

/-- The create branch of the bulk loop (lines 59-69): the same defaults as
`createRecord` plus `updatedBy: item.updatedBy`. -/
def mkBulkRecord (curYear : Int) (nextId : Nat) (item : Payload) :
    StudentRecord :=
  { oid := nextId
    studentId := jsTrim (jsOrS item.studentId "")
    studentName := jsTrim (jsOrS item.studentName "")
    courseCode := jsTrim (jsOrS item.courseCode "")
    grade := jsTrim (jsOrS item.grade "")
    numericGrade := item.numericGrade.getD 70
    instructor := jsTrim (jsOrS item.instructor "Unknown")
    yearCompleted := jsOrI item.yearCompleted curYear
    semester := jsTrim (jsOrS item.semester "First")
    updatedBy := item.updatedBy }

/-- One entry of the per-item `results.details` list. -/
structure BulkDetail where
  studentId : Option String
  courseCode : Option String
  status : String
  recId : Option Nat
  err : Option String
deriving DecidableEq

/-- The running `results` object of the bulk loop together with the store and
the fresh-id counter. -/
structure BulkAcc where
  created : Nat
  updated : Nat
  errors : Nat
  details : List BulkDetail
  store : List StudentRecord
  nextId : Nat
deriving DecidableEq

/-- The loop body of `bulkUploadRecords` (lines 30-90): look the item up by
(studentId, courseCode); update when found, create otherwise; a thrown save
error is caught, counted and recorded without touching the store. -/
def bulkStep (curYear : Int) (acc : BulkAcc) (item : Payload) : BulkAcc :=
  match findOnePair acc.store item.studentId item.courseCode with
  | some existing =>
    match saveExisting curYear acc.store (bulkUpdateExisting existing item) with
    | .ok st2 =>
      { acc with
        updated := acc.updated + 1
        details := acc.details ++
          [⟨item.studentId, item.courseCode, "updated", some existing.oid, none⟩]
        store := st2 }
    | .error e =>
      { acc with
        errors := acc.errors + 1
        details := acc.details ++
          [⟨some (jsOrS item.studentId "Unknown"), some (jsOrS item.courseCode "Unknown"),
            "error", none, some e⟩] }
  | none =>
    match saveNew curYear acc.store (mkBulkRecord curYear acc.nextId item) with
    | .ok st2 =>
      { acc with
        created := acc.created + 1
        details := acc.details ++
          [⟨item.studentId, item.courseCode, "created", some acc.nextId, none⟩]
        store := st2
        nextId := acc.nextId + 1 }
    | .error e =>
      { acc with
        errors := acc.errors + 1
        details := acc.details ++
          [⟨some (jsOrS item.studentId "Unknown"), some (jsOrS item.courseCode "Unknown"),
            "error", none, some e⟩] }

/-- The `for (const item of records)` loop. -/
def bulkLoop (curYear : Int) (items : List Payload) (acc : BulkAcc) : BulkAcc :=
  items.foldl (bulkStep curYear) acc

/-- The zeroed `results` object over a given store and counter. -/
def initAcc (st : List StudentRecord) (nextId : Nat) : BulkAcc :=
  ⟨0, 0, 0, [], st, nextId⟩

/-- The `records` field of the bulk-upload request body: absent, present but
not an array, or an array of items. -/
inductive RecordsField where
  | missing
  | notArray
  | arr (items : List Payload)
deriving DecidableEq

/-- `bulkUploadRecords` (lines 12-104): reject a missing, non-array or empty
`records` field with 400 and no store access; otherwise run the loop and
answer 200 with the aggregate results.  Returns the response, the results
(absent on rejection), the final store and counter. -/
def bulkUploadRecords (curYear : Int) (st : List StudentRecord) (nextId : Nat)
    (rf : RecordsField) : Resp × Option BulkAcc × List StudentRecord × Nat :=
  match rf with
  | .arr (item :: rest) =>
    let r := bulkLoop curYear (item :: rest) (initAcc st nextId)
    let n := (item :: rest).length
    let c := r.created
    let u := r.updated
    let e := r.errors
    (⟨200, true, s!"Processed {n} records: {c} created, {u} updated, {e} errors"⟩,
     some r, r.store, r.nextId)
  | .arr [] => (⟨400, false, "Invalid or empty records array"⟩, none, st, nextId)
  | .missing => (⟨400, false, "Invalid or empty records array"⟩, none, st, nextId)
  | .notArray => (⟨400, false, "Invalid or empty records array"⟩, none, st, nextId)

/-! ### Shared helper lemmas -/

/-- Splitting a filtered list by a Boolean predicate preserves the length. -/
theorem length_filter_not_split {α : Type} (p : α → Bool) (l : List α) :
    (l.filter p).length + (l.filter (fun x => !p x)).length = l.length := by
  induction l with
  | nil => rfl
  | cons x xs ih =>
    cases hx : p x <;> simp [List.filter_cons, hx, Nat.add_assoc, Nat.add_comm, ← ih] <;> omega

/-- A payload accepted by `validateStudentRecord` supplies truthy studentId
and courseCode. -/
theorem validateSR_nil_truthy (curYear : Int) (p : Payload)
    (h : validateStudentRecord curYear p = []) :
    truthyS p.studentId = true ∧ truthyS p.courseCode = true := by
  unfold validateStudentRecord at h
  constructor
  · cases hs : truthyS p.studentId
    · rw [hs] at h; simp at h
    · rfl
  · cases hc : truthyS p.courseCode
    · rw [hc] at h; simp at h
    · rfl

/-- A truthy optional string is a `some` of a nonempty string. -/
theorem truthyS_exists {v : Option String} (h : truthyS v = true) :
    ∃ s, v = some s ∧ (s == "") = false := by
  cases v with
  | none => simp [truthyS] at h
  | some s =>
    refine ⟨s, rfl, ?_⟩
    simpa [truthyS] using h

/-! ### Concrete fixtures used by counterexamples and witnesses -/

/-- A stored record with numericGrade 50. -/
def recFix : StudentRecord := ⟨0, "S1", "Alice", "C1", "B", 50, "Smith", 2020, "First", none⟩

/-- An update payload supplying only `numericGrade: 0`. -/
def payloadZeroGrade : Payload := ⟨none, none, none, none, some 0, none, none, none, none⟩

/-- A fully valid create/update payload. -/
def payloadOK : Payload :=
  ⟨some "S1", some "Alice", some "C1", some "B", some 85, some "Smith", some 2020,
   some "First", none⟩

/-- A second valid payload for a different (studentId, courseCode) pair. -/
def payloadOK2 : Payload :=
  ⟨some "S2", some "Ben", some "C2", some "A", some 91, some "Jones", some 2021,
   some "First", none⟩

/-- A bulk item whose save fails schema validation (numericGrade 150 > 100). -/
def badBulkItem : Payload :=
  ⟨some "S9", some "Bob", some "C9", some "F", some 150, some "Jones", some 2020,
   some "First", none⟩

/-- A POST /api/logs body whose user reference is the literal string
unknown. -/
def logReqUnknown : LogReq :=
  ⟨some "unknown", some "alice", some "admin", some "LOGIN", none, some "127.0.0.1"⟩

/-- An activity log whose timestamp is 31 days in the past (now = 0). -/
def logOld : LogEntry := ⟨some "a", some "u", some "t", some "LOGIN", [], none, -31⟩

/-- An activity log whose timestamp is 29 days in the past (now = 0). -/
def logRecent : LogEntry := ⟨some "a", some "u", some "t", some "LOGIN", [], none, -29⟩

/-! ### C3 -/

/-- C3 counterexample: the claim says a payload with `numericGrade = 0` leaves
the stored numericGrade unchanged, but `updateRecord` on a record holding 50
with the payload `{numericGrade: 0}` answers 200 and stores 0: numericGrade
uses a `!== undefined` test, not truthiness. -/
theorem updateRecord_numericGrade_zero_overwrites :
    recFix.numericGrade = 50 ∧ payloadZeroGrade.numericGrade = some 0 ∧
    (updateRecord 2025 [recFix] 0 payloadZeroGrade).1.status = 200 ∧
    (updateRecord 2025 [recFix] 0 payloadZeroGrade).2.map (fun r => r.numericGrade) = [0] := by
  decide

/-- C3 (amended): in the field-assignment block of `updateRecord`, every field
except numericGrade is replaced only when the payload value is truthy — an
absent, empty-string (or, for yearCompleted, zero) value keeps the stored
value — while numericGrade is replaced exactly when present in the payload,
including when it is 0. -/
theorem applyUpdate_falsy_skipped_except_numericGrade
    (record : StudentRecord) (p : Payload) :
    ((p.studentId = none ∨ p.studentId = some "") →
      (applyUpdate record p).studentId = record.studentId) ∧
    ((p.studentName = none ∨ p.studentName = some "") →
      (applyUpdate record p).studentName = record.studentName) ∧
    ((p.courseCode = none ∨ p.courseCode = some "") →
      (applyUpdate record p).courseCode = record.courseCode) ∧
    ((p.grade = none ∨ p.grade = some "") →
      (applyUpdate record p).grade = record.grade) ∧
    ((p.instructor = none ∨ p.instructor = some "") →
      (applyUpdate record p).instructor = record.instructor) ∧
    ((p.semester = none ∨ p.semester = some "") →
      (applyUpdate record p).semester = record.semester) ∧
    ((p.yearCompleted = none ∨ p.yearCompleted = some 0) →
      (applyUpdate record p).yearCompleted = record.yearCompleted) ∧
    (applyUpdate record p).numericGrade = p.numericGrade.getD record.numericGrade := by
  refine ⟨?_, ?_, ?_, ?_, ?_, ?_, ?_, rfl⟩ <;>
    (intro h; rcases h with h | h <;> simp [applyUpdate, h, truthyS, truthyI, jsOrI])

/-- Witness for the amended C3 theorem at a concrete record and payload. -/
theorem applyUpdate_falsy_skipped_witness :
    (applyUpdate recFix payloadZeroGrade).studentName = recFix.studentName ∧
    (applyUpdate recFix payloadZeroGrade).numericGrade = 0 := by
  have h := applyUpdate_falsy_skipped_except_numericGrade recFix payloadZeroGrade
  exact ⟨h.2.1 (Or.inl rfl), by rw [h.2.2.2.2.2.2.2]; decide⟩

/-! ### C6 -/

/-- C6: when the supplied user reference is invalid (absent, the string
unknown, or malformed), `createLog` strips it, but the ActivityLog schema
declares `user: required`, so the save is rejected: the controller answers
500 and nothing is persisted — the entry is NOT stored without a user
reference as the spec claims. -/
theorem createLog_invalid_user_rejected (st : List LogEntry) (req : LogReq)
    (now : Int) (h : validUserRef req.user = false) :
    createLog st req now = (⟨500, false, "Error creating activity log"⟩, st) := by
  simp [createLog, h, saveLog]

/-- Witness: the failing input of C6 (user reference "unknown") evaluated
through `createLog`. -/
theorem createLog_invalid_user_rejected_witness :
    validUserRef logReqUnknown.user = false ∧
    createLog [] logReqUnknown 5 = (⟨500, false, "Error creating activity log"⟩, []) := by
  exact ⟨by decide, createLog_invalid_user_rejected [] logReqUnknown 5 (by decide)⟩

/-! ### C7 -/

/-- C7: at the route variant cited by the spec (studentRoutes.js line 38,
"temporarily no auth for testing"), a caller declaring role instructor
deletes the record and receives 200 — diverging from the claimed 403 —
while under the isAdmin-protected variants the claim holds: instructor gets
403 with the store unchanged and admin deletes successfully. -/
theorem deleteRecord_instructor_divergence :
    (deleteEndpointUnprotected [recFix] 0).1.status = 200 ∧
    (deleteEndpointUnprotected [recFix] 0).2 = [] ∧
    (deleteEndpointAdminOnly [recFix] 0 (some "instructor") none none).1.status = 403 ∧
    (deleteEndpointAdminOnly [recFix] 0 (some "instructor") none none).2 = [recFix] ∧
    (deleteEndpointAdminOnly [recFix] 0 (some "admin") none none).1.status = 200 ∧
    (deleteEndpointAdminOnly [recFix] 0 (some "admin") none none).2 = [] := by
  decide

/-! ### C8 -/

/-- C8: `cleanupLogs` with an absent or non-numeric days parameter uses the
default 30 and deletes exactly the entries whose timestamp is strictly
before now - 30, returning the count of deleted entries (the kept entries
are exactly the ones at or after the cutoff). -/
theorem cleanupLogs_default_strict_cutoff (st : List LogEntry) (now : Int)
    (daysQ : Option String)
    (hq : daysQ = none ∨ ∃ s, daysQ = some s ∧ jsParseInt s = none) :
    (∀ l, l ∈ (cleanupLogs st now daysQ).2 ↔ l ∈ st ∧ ¬(l.timestamp < now - 30)) ∧
    (cleanupLogs st now daysQ).1 =
      (st.filter (fun l => decide (l.timestamp < now - 30))).length ∧
    (cleanupLogs st now daysQ).1 + (cleanupLogs st now daysQ).2.length = st.length := by
  have hdays : jsOrI (daysQ.bind jsParseInt) 30 = 30 := by
    rcases hq with rfl | ⟨s, rfl, hs⟩
    · simp [jsOrI, truthyI]
    · simp [jsOrI, truthyI, hs]
  refine ⟨?_, ?_, ?_⟩
  · intro l
    simp [cleanupLogs, hdays, List.mem_filter]
  · simp [cleanupLogs, hdays]
  · simp only [cleanupLogs, hdays]
    exact length_filter_not_split _ st

/-- Witness for C8: with logs at now - 31 and now - 29 days and no days
parameter, exactly the former is deleted. -/
theorem cleanupLogs_default_strict_cutoff_witness :
    (cleanupLogs [logOld, logRecent] 0 none).1 = 1 ∧
    logOld ∉ (cleanupLogs [logOld, logRecent] 0 none).2 ∧
    logRecent ∈ (cleanupLogs [logOld, logRecent] 0 none).2 := by
  have h := cleanupLogs_default_strict_cutoff [logOld, logRecent] 0 none (Or.inl rfl)
  refine ⟨?_, ?_, ?_⟩
  · rw [h.2.1]; decide
  · intro hm
    have h2 := (h.1 logOld).mp hm
    revert h2; decide
  · exact (h.1 logRecent).mpr (by decide)

/-! ### C10 -/

/-- C10: a bulk-upload request whose records field is missing, not an array,
or an empty array is answered with 400 "Invalid or empty records array" and
the store (and id counter) are untouched. -/
theorem bulkUpload_rejects_invalid_records (curYear : Int)
    (st : List StudentRecord) (nextId : Nat) (rf : RecordsField)
    (h : rf = .missing ∨ rf = .notArray ∨ rf = .arr []) :
    bulkUploadRecords curYear st nextId rf =
      (⟨400, false, "Invalid or empty records array"⟩, none, st, nextId) := by
  rcases h with rfl | rfl | rfl <;> rfl

/-- Witness for C10 at concrete stores and all three rejected shapes. -/
theorem bulkUpload_rejects_invalid_records_witness :
    bulkUploadRecords 2025 [] 0 .missing =
      (⟨400, false, "Invalid or empty records array"⟩, none, [], 0) ∧
    bulkUploadRecords 2025 [recFix] 5 .notArray =
      (⟨400, false, "Invalid or empty records array"⟩, none, [recFix], 5) ∧
    bulkUploadRecords 2025 [recFix] 5 (.arr []) =
      (⟨400, false, "Invalid or empty records array"⟩, none, [recFix], 5) := by
  exact ⟨bulkUpload_rejects_invalid_records 2025 [] 0 .missing (Or.inl rfl),
    bulkUpload_rejects_invalid_records 2025 [recFix] 5 .notArray (Or.inr (Or.inl rfl)),
    bulkUpload_rejects_invalid_records 2025 [recFix] 5 (.arr []) (Or.inr (Or.inr rfl))⟩

/-! ### C1 -/

/-- C1: from a store holding no record with the payload pair, creating twice
with the same valid payload yields one 201 success that persists the record
and one 400 Conflict that persists nothing, leaving exactly one record with
that (studentId, courseCode) pair. -/
theorem createRecord_twice_one_success_one_conflict
    (curYear : Int) (st : List StudentRecord) (n1 : Nat) (p : Payload)
    (hval : validateStudentRecord curYear p = [])
    (hsave : saveValidate curYear (mkNewRecord curYear n1 p) = none)
    (hfresh : ∀ r ∈ st, ¬(r.studentId = jsTrim (p.studentId.getD "") ∧
      r.courseCode = jsTrim (p.courseCode.getD ""))) :
    (createRecord curYear st n1 p).1.status = 201 ∧
    (createRecord curYear st n1 p).2.1 = st ++ [mkNewRecord curYear n1 p] ∧
    (createRecord curYear (createRecord curYear st n1 p).2.1
        (createRecord curYear st n1 p).2.2 p).1 =
      ⟨400, false, "A record for this student and course already exists"⟩ ∧
    (createRecord curYear (createRecord curYear st n1 p).2.1
        (createRecord curYear st n1 p).2.2 p).2.1 = (createRecord curYear st n1 p).2.1 ∧
    (((createRecord curYear st n1 p).2.1).filter (fun r =>
        r.studentId == jsTrim (p.studentId.getD "") &&
        r.courseCode == jsTrim (p.courseCode.getD ""))).length = 1 := by
  obtain ⟨hts, htc⟩ := validateSR_nil_truthy curYear p hval
  obtain ⟨s, hsid, hsne⟩ := truthyS_exists hts
  obtain ⟨c, hcid, hcne⟩ := truthyS_exists htc
  have hgds : p.studentId.getD "" = s := by rw [hsid]; rfl
  have hgdc : p.courseCode.getD "" = c := by rw [hcid]; rfl
  rw [hgds, hgdc] at hfresh ⊢
  have hnew_s : (mkNewRecord curYear n1 p).studentId = jsTrim s := by
    simp [mkNewRecord, jsOrS, hts, hgds]
  have hnew_c : (mkNewRecord curYear n1 p).courseCode = jsTrim c := by
    simp [mkNewRecord, jsOrS, htc, hgdc]
  have hfind1 : findOnePair st p.studentId p.courseCode = none := by
    apply List.find?_eq_none.mpr
    intro r hr
    rw [hsid, hcid]
    simp only [filterEqS, Bool.and_eq_true, beq_iff_eq, not_and]
    intro h1 h2
    exact absurd ⟨h1, h2⟩ (hfresh r hr)
  have hany : (st.any (fun x =>
      x.studentId == (mkNewRecord curYear n1 p).studentId &&
      x.courseCode == (mkNewRecord curYear n1 p).courseCode)) = false := by
    apply List.any_eq_false.mpr
    intro x hx
    rw [hnew_s, hnew_c]
    simp only [Bool.and_eq_true, beq_iff_eq, not_and]
    intro h1 h2
    exact absurd ⟨h1, h2⟩ (hfresh x hx)
  have hout1 : createRecord curYear st n1 p =
      (⟨201, true, "Student record created successfully"⟩,
       st ++ [mkNewRecord curYear n1 p], n1 + 1) := by
    simp only [createRecord, hfind1, Option.isSome_none, Bool.false_eq_true, if_false,
      saveNew, hsave, hany]
  have hfind2 : (findOnePair (st ++ [mkNewRecord curYear n1 p])
      p.studentId p.courseCode).isSome = true := by
    apply List.find?_isSome.mpr
    refine ⟨mkNewRecord curYear n1 p, by simp, ?_⟩
    rw [hsid, hcid]
    simp [filterEqS, hnew_s, hnew_c]
  have hout2 : createRecord curYear (st ++ [mkNewRecord curYear n1 p]) (n1 + 1) p =
      (⟨400, false, "A record for this student and course already exists"⟩,
       st ++ [mkNewRecord curYear n1 p], n1 + 1) := by
    simp only [createRecord, hfind2, if_true]
  have hfilter : (st ++ [mkNewRecord curYear n1 p]).filter (fun r =>
      r.studentId == jsTrim s && r.courseCode == jsTrim c) = [mkNewRecord curYear n1 p] := by
    rw [List.filter_append]
    have h1 : st.filter (fun r => r.studentId == jsTrim s && r.courseCode == jsTrim c) = [] := by
      apply List.filter_eq_nil_iff.mpr
      intro x hx
      simp only [Bool.and_eq_true, beq_iff_eq, not_and]
      intro h1 h2
      exact absurd ⟨h1, h2⟩ (hfresh x hx)
    rw [h1]
    simp [List.filter, hnew_s, hnew_c]
  refine ⟨by rw [hout1], by rw [hout1], ?_, ?_, ?_⟩
  · rw [hout1]
    exact congrArg Prod.fst hout2
  · rw [hout1]
    rw [show (createRecord curYear (st ++ [mkNewRecord curYear n1 p]) (n1 + 1) p).2.1 =
      st ++ [mkNewRecord curYear n1 p] from congrArg (fun x => x.2.1) hout2]
  · rw [hout1]
    simp only [hfilter, List.length_cons, List.length_nil]

/-- Witness for C1 with a concrete valid payload against the empty store. -/
theorem createRecord_twice_witness :
    validateStudentRecord 2025 payloadOK = [] ∧
    saveValidate 2025 (mkNewRecord 2025 0 payloadOK) = none ∧
    (createRecord 2025 [] 0 payloadOK).1.status = 201 ∧
    (createRecord 2025 (createRecord 2025 [] 0 payloadOK).2.1
        (createRecord 2025 [] 0 payloadOK).2.2 payloadOK).1 =
      ⟨400, false, "A record for this student and course already exists"⟩ := by
  have h := createRecord_twice_one_success_one_conflict 2025 [] 0 payloadOK
    (by decide) (by decide) (by intro r hr; exact absurd hr (List.not_mem_nil r))
  exact ⟨by decide, by decide, h.1, h.2.2.1⟩

/-! ### C4 -/

/-- C4: through the PUT /students/:id pipeline (validation middleware then
controller), a valid payload against an absent id yields 404 with the store
unchanged; and when the payload changes the record's studentId or courseCode
and another record (a different id) already holds the new pair, the update
is answered 400 Conflict with the store unchanged. -/
theorem updateRecord_notfound_and_conflict
    (curYear : Int) (st : List StudentRecord) (i : Nat) (p : Payload)
    (hval : validateStudentRecord curYear p = []) :
    ((∀ r ∈ st, r.oid ≠ i) →
      updateRecordEndpoint curYear st i p =
        (⟨404, false, "Student record not found"⟩, st)) ∧
    (∀ record s c, findById st i = some record →
      p.studentId = some s → p.courseCode = some c →
      (s ≠ record.studentId ∨ c ≠ record.courseCode) →
      (∃ o, o ∈ st ∧ o.oid ≠ i ∧ o.studentId = jsTrim s ∧ o.courseCode = jsTrim c) →
      updateRecordEndpoint curYear st i p =
        (⟨400, false, "A record for this student and course already exists"⟩, st)) := by
  have hep : updateRecordEndpoint curYear st i p = updateRecord curYear st i p := by
    simp [updateRecordEndpoint, hval]
  constructor
  · intro habs
    have hfind : findById st i = none := by
      apply List.find?_eq_none.mpr
      intro r hr
      simpa using habs r hr
    rw [hep]
    simp only [updateRecord, hfind]
  · intro record s c hfind hsid hcid hne hex
    obtain ⟨hts, htc⟩ := validateSR_nil_truthy curYear p hval
    have hcond : (truthyS p.studentId && truthyS p.courseCode &&
        (((p.studentId.getD "") != record.studentId) ||
         ((p.courseCode.getD "") != record.courseCode))) = true := by
      rw [hsid] at hts
      rw [hcid] at htc
      rcases hne with h | h <;> simp [hts, htc, hsid, hcid, h]
    have hdup : (findOnePairExcl st p.studentId p.courseCode i).isSome = true := by
      apply List.find?_isSome.mpr
      obtain ⟨o, ho, hoid, hos, hoc⟩ := hex
      refine ⟨o, ho, ?_⟩
      rw [hsid, hcid]
      simp [filterEqS, hos, hoc, hoid]
    rw [hep]
    simp only [updateRecord, hfind, hcond, hdup, if_true]

/-- A second stored record holding the pair (S1, C2). -/
def recFixB : StudentRecord := ⟨1, "S1", "Ben", "C2", "A", 91, "Jones", 2021, "First", none⟩

/-- A valid payload moving a record onto the pair (S1, C2). -/
def payloadConflict : Payload :=
  ⟨some "S1", some "Alice", some "C2", some "B", some 85, some "Smith", some 2020,
   some "First", none⟩

/-- Witness for C4: updating record 0 onto the pair held by record 1 is a 400
Conflict; updating an absent id 99 is a 404; the store is unchanged both
times. -/
theorem updateRecord_notfound_and_conflict_witness :
    validateStudentRecord 2025 payloadConflict = [] ∧
    updateRecordEndpoint 2025 [recFix, recFixB] 0 payloadConflict =
      (⟨400, false, "A record for this student and course already exists"⟩,
       [recFix, recFixB]) ∧
    updateRecordEndpoint 2025 [recFix, recFixB] 99 payloadConflict =
      (⟨404, false, "Student record not found"⟩, [recFix, recFixB]) := by
  have h := updateRecord_notfound_and_conflict 2025 [recFix, recFixB] 0 payloadConflict
    (by decide)
  have h99 := updateRecord_notfound_and_conflict 2025 [recFix, recFixB] 99 payloadConflict
    (by decide)
  refine ⟨by decide, ?_, ?_⟩
  · exact h.2 recFix "S1" "C2" (by decide) rfl rfl (Or.inr (by decide))
      ⟨recFixB, by decide⟩
  · exact h99.1 (by decide)

/-! ### C5 -/

/-- Every unescaped-special regex character is in the class that
`createSafeRegex` escapes. -/
theorem syntaxChar_is_meta (c : Char) (h : isRegexSyntaxChar c = true) :
    isRegexMeta c = true := by
  simp only [isRegexSyntaxChar, isRegexMeta, Bool.or_eq_true, beq_iff_eq] at h ⊢
  casesm* _ ∨ _ <;> subst_vars <;> decide

/-- The escaped pattern always parses, and denotes exactly the original
term as a literal. -/
theorem literalOfPattern_escape (l : List Char) :
    literalOfPattern (escapeRegexChars l) = some l := by
  induction l with
  | nil => rfl
  | cons c cs ih =>
    by_cases hm : isRegexMeta c = true
    · simp [escapeRegexChars, hm, literalOfPattern, ih]
    · have hsyn : isRegexSyntaxChar c = false := by
        cases hcs : isRegexSyntaxChar c
        · rfl
        · exact absurd (syntaxChar_is_meta c hcs) hm
      have hbs : (c == '\\') = false := by
        cases hb : c == '\\'
        · rfl
        · have hc : c = '\\' := by simpa using hb
          subst hc
          exact absurd (by decide : isRegexMeta '\\' = true) hm
      rw [show escapeRegexChars (c :: cs) = c :: escapeRegexChars cs by
        simp [escapeRegexChars, hm]]
      rw [literalOfPattern.eq_def]
      simp [hbs, hsyn, ih]

/-- For every filter term, the safe regex never fails and tests exactly
case-insensitive literal containment. -/
theorem regexTestI_escape (term input : String) :
    regexTestI (createSafeRegex term) input =
      some (containsCI input.toList term.toList) := by
  unfold regexTestI createSafeRegex
  rw [literalOfPattern_escape]
  rfl

/-- C5: for every supplied value of a text filter key of the record list
operation, the filter is defined (no thrown regex error: the result is
`some`) and matches exactly the records whose field contains the input
literally, case-insensitively — metacharacters in the input are never
interpreted; grade, yearCompleted and semester use exact matching. -/
theorem listFilter_text_literal (q : ListQuery) (r : StudentRecord) :
    recordMatchesListFilter q r = some (
      (match q.courseCode with
       | none => true
       | some t => containsCI r.courseCode.toList t.toList) &&
      (match q.studentId with
       | none => true
       | some t => containsCI r.studentId.toList t.toList) &&
      (match q.studentName with
       | none => true
       | some t => containsCI r.studentName.toList t.toList) &&
      (match q.instructor with
       | none => true
       | some t => containsCI r.instructor.toList t.toList) &&
      (match q.grade with | none => true | some g => r.grade == g) &&
      (match q.yearCompleted with | none => true | some y => r.yearCompleted == y) &&
      (match q.semester with | none => true | some s => r.semester == s)) := by
  unfold recordMatchesListFilter textFilterCI
  cases q.courseCode <;> cases q.studentId <;> cases q.studentName <;>
    cases q.instructor <;> simp [regexTestI_escape, Option.bind]

/-! ### C9 -/

/-- C9: login matches on the (username, userType) pair: when the stored user
with the supplied (unique) username has a different userType, the request is
rejected 401 Invalid credentials, the user store is unchanged (no lastLogin
update), no session is established, and the password is never hashed;
moreover the password check runs only when a user with the exact pair
exists. -/
theorem login_requires_username_userType_pair
    (hashF : String → String → String) (users : List UserRec)
    (username password userType : String) (now : Int) (u : UserRec)
    (_hu : u ∈ users) (_hname : u.username = username)
    (hdiff : u.userType ≠ userType)
    (huniq : ∀ v ∈ users, v.username = username → v = u) :
    login hashF users username password userType now =
      ⟨401, "Invalid credentials", users, none, false⟩ ∧
    (∀ us un pw ut n, (login hashF us un pw ut n).passwordChecked = true →
      ∃ v ∈ us, v.username = un ∧ v.userType = ut) := by
  constructor
  · have hfind : users.find? (fun v => v.username == username && v.userType == userType)
        = none := by
      apply List.find?_eq_none.mpr
      intro v hv
      simp only [Bool.and_eq_true, beq_iff_eq, not_and]
      intro h1 h2
      have hvu : v = u := huniq v hv h1
      rw [hvu] at h2
      exact hdiff h2
    simp [login, hfind]
  · intro us un pw ut n hpc
    unfold login at hpc
    cases hfind : us.find? (fun v => v.username == un && v.userType == ut) with
    | none =>
      rw [hfind] at hpc
      simp at hpc
    | some v =>
      have hm := List.mem_of_find?_eq_some hfind
      have hp := List.find?_some hfind
      simp only [Bool.and_eq_true, beq_iff_eq] at hp
      exact ⟨v, hm, hp.1, hp.2⟩

/-- A stored chairman whose password under the witness hash is "pw". -/
def userFix : UserRec := ⟨1, "alice", "pwsalt", "salt", "chairman", "Alice", "al@b.com", none⟩

/-- Witness for C9: correct username and password but userType admin is
rejected 401 with no state change and no password check. -/
theorem login_requires_username_userType_pair_witness :
    verifyPassword (fun p s => p ++ s) "pw" userFix.passwordHash userFix.passwordSalt = true ∧
    login (fun p s => p ++ s) [userFix] "alice" "pw" "admin" 9 =
      ⟨401, "Invalid credentials", [userFix], none, false⟩ := by
  have h := login_requires_username_userType_pair (fun p s => p ++ s) [userFix]
    "alice" "pw" "admin" 9 userFix (by decide) (by decide) (by decide)
    (by intro v hv _; exact List.mem_singleton.mp hv)
  exact ⟨by decide, h.1⟩

/-! ### C2 -/

/-- Does processing this item from this store (and counter) end in the catch
branch of the bulk loop?  Mirrors the branch analysis of `bulkStep`. -/
def bulkItemErrs (curYear : Int) (st : List StudentRecord) (nextId : Nat)
    (item : Payload) : Bool :=
  match findOnePair st item.studentId item.courseCode with
  | some existing =>
    match saveExisting curYear st (bulkUpdateExisting existing item) with
    | .ok _ => false
    | .error _ => true
  | none =>
    match saveNew curYear st (mkBulkRecord curYear nextId item) with
    | .ok _ => false
    | .error _ => true

/-- Merge an accumulator prefix with the outcome of a run started from its
store and counter. -/
def accMerge (a r : BulkAcc) : BulkAcc :=
  ⟨a.created + r.created, a.updated + r.updated, a.errors + r.errors,
   a.details ++ r.details, r.store, r.nextId⟩

/-- An erroring item bumps the error counter and appends one error detail,
leaving the store, the counter and the other counts untouched. -/
theorem bulkStep_error_eq (curYear : Int) (acc : BulkAcc) (item : Payload)
    (h : bulkItemErrs curYear acc.store acc.nextId item = true) :
    ∃ d : BulkDetail, d.status = "error" ∧
      bulkStep curYear acc item =
        { acc with errors := acc.errors + 1, details := acc.details ++ [d] } := by
  cases hf : findOnePair acc.store item.studentId item.courseCode with
  | some existing =>
    cases hs : saveExisting curYear acc.store (bulkUpdateExisting existing item) with
    | ok st2 =>
      simp only [bulkItemErrs, hf, hs] at h
      exact absurd h (by decide)
    | error e =>
      refine ⟨⟨some (jsOrS item.studentId "Unknown"), some (jsOrS item.courseCode "Unknown"),
        "error", none, some e⟩, rfl, ?_⟩
      simp only [bulkStep, hf, hs]
  | none =>
    cases hs : saveNew curYear acc.store (mkBulkRecord curYear acc.nextId item) with
    | ok st2 =>
      simp only [bulkItemErrs, hf, hs] at h
      exact absurd h (by decide)
    | error e =>
      refine ⟨⟨some (jsOrS item.studentId "Unknown"), some (jsOrS item.courseCode "Unknown"),
        "error", none, some e⟩, rfl, ?_⟩
      simp only [bulkStep, hf, hs]

/-- Any step is the merge of the prefix accumulator with the step taken from
the zeroed accumulator over the same store and counter. -/
theorem bulkStep_merge (curYear : Int) (a : BulkAcc) (y : Payload) :
    bulkStep curYear a y = accMerge a (bulkStep curYear (initAcc a.store a.nextId) y) := by
  cases hf : findOnePair a.store y.studentId y.courseCode with
  | some existing =>
    cases hs : saveExisting curYear a.store (bulkUpdateExisting existing y) with
    | ok st2 => simp [bulkStep, initAcc, accMerge, hf, hs]
    | error e => simp [bulkStep, initAcc, accMerge, hf, hs]
  | none =>
    cases hs : saveNew curYear a.store (mkBulkRecord curYear a.nextId y) with
    | ok st2 => simp [bulkStep, initAcc, accMerge, hf, hs]
    | error e => simp [bulkStep, initAcc, accMerge, hf, hs]

/-- `accMerge` is associative. -/
theorem accMerge_assoc (a b c : BulkAcc) :
    accMerge (accMerge a b) c = accMerge a (accMerge b c) := by
  simp [accMerge, Nat.add_assoc]

/-- A loop run is the merge of its starting accumulator with the run started
from the zeroed accumulator over the same store and counter. -/
theorem bulkLoop_merge (curYear : Int) (ys : List Payload) :
    ∀ a : BulkAcc, bulkLoop curYear ys a =
      accMerge a (bulkLoop curYear ys (initAcc a.store a.nextId)) := by
  induction ys with
  | nil =>
    intro a
    cases a
    simp [bulkLoop, accMerge, initAcc]
  | cons y ys ih =>
    intro a
    simp only [bulkLoop, List.foldl_cons] at *
    rw [ih (bulkStep curYear a y), bulkStep_merge curYear a y]
    rw [ih (bulkStep curYear (initAcc a.store a.nextId) y)]
    rw [← accMerge_assoc]
    rfl

/-- Every step appends exactly one detail entry. -/
theorem bulkStep_detail_len (curYear : Int) (a : BulkAcc) (y : Payload) :
    (bulkStep curYear a y).details.length = a.details.length + 1 := by
  cases hf : findOnePair a.store y.studentId y.courseCode with
  | some existing =>
    cases hs : saveExisting curYear a.store (bulkUpdateExisting existing y) with
    | ok st2 => simp [bulkStep, hf, hs]
    | error e => simp [bulkStep, hf, hs]
  | none =>
    cases hs : saveNew curYear a.store (mkBulkRecord curYear a.nextId y) with
    | ok st2 => simp [bulkStep, hf, hs]
    | error e => simp [bulkStep, hf, hs]

/-- The loop appends exactly one detail entry per input item. -/
theorem bulkLoop_detail_len (curYear : Int) (ys : List Payload) :
    ∀ a : BulkAcc, (bulkLoop curYear ys a).details.length =
      a.details.length + ys.length := by
  induction ys with
  | nil => intro a; simp [bulkLoop]
  | cons y ys ih =>
    intro a
    simp only [bulkLoop, List.foldl_cons] at *
    rw [ih (bulkStep curYear a y), bulkStep_detail_len]
    simp [Nat.add_assoc, Nat.add_comm 1 ys.length]

/-- The three counters of the accumulator stay equal to the number of detail
entries carrying the corresponding status. -/
def accInv (a : BulkAcc) : Prop :=
  a.created = (a.details.filter (fun d => d.status == "created")).length ∧
  a.updated = (a.details.filter (fun d => d.status == "updated")).length ∧
  a.errors = (a.details.filter (fun d => d.status == "error")).length

/-- Each step preserves the counter/detail correspondence. -/
theorem bulkStep_inv (curYear : Int) (a : BulkAcc) (y : Payload)
    (h : accInv a) : accInv (bulkStep curYear a y) := by
  obtain ⟨h1, h2, h3⟩ := h
  cases hf : findOnePair a.store y.studentId y.courseCode with
  | some existing =>
    cases hs : saveExisting curYear a.store (bulkUpdateExisting existing y) with
    | ok st2 =>
      refine ⟨?_, ?_, ?_⟩ <;>
        simp [bulkStep, hf, hs, List.filter_append, List.filter_cons, h1, h2, h3]
    | error e =>
      refine ⟨?_, ?_, ?_⟩ <;>
        simp [bulkStep, hf, hs, List.filter_append, List.filter_cons, h1, h2, h3]
  | none =>
    cases hs : saveNew curYear a.store (mkBulkRecord curYear a.nextId y) with
    | ok st2 =>
      refine ⟨?_, ?_, ?_⟩ <;>
        simp [bulkStep, hf, hs, List.filter_append, List.filter_cons, h1, h2, h3]
    | error e =>
      refine ⟨?_, ?_, ?_⟩ <;>
        simp [bulkStep, hf, hs, List.filter_append, List.filter_cons, h1, h2, h3]

/-- The loop preserves the counter/detail correspondence. -/
theorem bulkLoop_inv (curYear : Int) (ys : List Payload) :
    ∀ a : BulkAcc, accInv a → accInv (bulkLoop curYear ys a) := by
  induction ys with
  | nil => intro a h; exact h
  | cons y ys ih =>
    intro a h
    simp only [bulkLoop, List.foldl_cons] at *
    exact ih (bulkStep curYear a y) (bulkStep_inv curYear a y h)

/-- Every step raises the combined created/updated/errors count by one. -/
theorem bulkStep_total (curYear : Int) (a : BulkAcc) (y : Payload) :
    (bulkStep curYear a y).created + (bulkStep curYear a y).updated +
      (bulkStep curYear a y).errors = a.created + a.updated + a.errors + 1 := by
  cases hf : findOnePair a.store y.studentId y.courseCode with
  | some existing =>
    cases hs : saveExisting curYear a.store (bulkUpdateExisting existing y) with
    | ok st2 => simp [bulkStep, hf, hs]; omega
    | error e => simp [bulkStep, hf, hs]; omega
  | none =>
    cases hs : saveNew curYear a.store (mkBulkRecord curYear a.nextId y) with
    | ok st2 => simp [bulkStep, hf, hs]; omega
    | error e => simp [bulkStep, hf, hs]; omega

/-- The loop raises the combined count by exactly the number of items. -/
theorem bulkLoop_total (curYear : Int) (ys : List Payload) :
    ∀ a : BulkAcc, (bulkLoop curYear ys a).created + (bulkLoop curYear ys a).updated +
      (bulkLoop curYear ys a).errors = a.created + a.updated + a.errors + ys.length := by
  induction ys with
  | nil => intro a; simp [bulkLoop]
  | cons y ys ih =>
    intro a
    simp only [bulkLoop, List.foldl_cons] at *
    rw [ih (bulkStep curYear a y), bulkStep_total]
    simp [List.length_cons]
    omega

/-- C2: the bulk loop processes each item independently.  Whenever the item
at some position errors (its lookup/save fails from the store it sees), the
run equals the run without that item except for one extra error: same final
store and id counter, same created and updated counts, errors one higher;
over any input the details list holds exactly one entry per input item, each
aggregate count equals the number of per-item outcomes with that status, and
the three counts sum to the number of items; the endpoint answers 200 with
these results. -/
theorem bulkUpload_item_isolation
    (curYear : Int) (st : List StudentRecord) (nextId : Nat)
    (xs ys : List Payload) (bad : Payload)
    (hbad : bulkItemErrs curYear (bulkLoop curYear xs (initAcc st nextId)).store
      (bulkLoop curYear xs (initAcc st nextId)).nextId bad = true) :
    (bulkLoop curYear (xs ++ bad :: ys) (initAcc st nextId)).store =
      (bulkLoop curYear (xs ++ ys) (initAcc st nextId)).store ∧
    (bulkLoop curYear (xs ++ bad :: ys) (initAcc st nextId)).nextId =
      (bulkLoop curYear (xs ++ ys) (initAcc st nextId)).nextId ∧
    (bulkLoop curYear (xs ++ bad :: ys) (initAcc st nextId)).created =
      (bulkLoop curYear (xs ++ ys) (initAcc st nextId)).created ∧
    (bulkLoop curYear (xs ++ bad :: ys) (initAcc st nextId)).updated =
      (bulkLoop curYear (xs ++ ys) (initAcc st nextId)).updated ∧
    (bulkLoop curYear (xs ++ bad :: ys) (initAcc st nextId)).errors =
      (bulkLoop curYear (xs ++ ys) (initAcc st nextId)).errors + 1 ∧
    (bulkLoop curYear (xs ++ bad :: ys) (initAcc st nextId)).details.length =
      xs.length + ys.length + 1 ∧
    accInv (bulkLoop curYear (xs ++ bad :: ys) (initAcc st nextId)) ∧
    (bulkLoop curYear (xs ++ bad :: ys) (initAcc st nextId)).created +
      (bulkLoop curYear (xs ++ bad :: ys) (initAcc st nextId)).updated +
      (bulkLoop curYear (xs ++ bad :: ys) (initAcc st nextId)).errors =
      xs.length + ys.length + 1 ∧
    (bulkUploadRecords curYear st nextId (.arr (xs ++ bad :: ys))).1.status = 200 ∧
    (bulkUploadRecords curYear st nextId (.arr (xs ++ bad :: ys))).2.1 =
      some (bulkLoop curYear (xs ++ bad :: ys) (initAcc st nextId)) := by
  obtain ⟨d, hd, hstep⟩ := bulkStep_error_eq curYear
    (bulkLoop curYear xs (initAcc st nextId)) bad hbad
  have hAll : bulkLoop curYear (xs ++ bad :: ys) (initAcc st nextId)
      = bulkLoop curYear ys (bulkStep curYear (bulkLoop curYear xs (initAcc st nextId)) bad) := by
    simp [bulkLoop, List.foldl_append, List.foldl_cons]
  have hSans : bulkLoop curYear (xs ++ ys) (initAcc st nextId)
      = bulkLoop curYear ys (bulkLoop curYear xs (initAcc st nextId)) := by
    simp [bulkLoop, List.foldl_append]
  have hAllEq : bulkLoop curYear (xs ++ bad :: ys) (initAcc st nextId)
      = accMerge { bulkLoop curYear xs (initAcc st nextId) with
            errors := (bulkLoop curYear xs (initAcc st nextId)).errors + 1,
            details := (bulkLoop curYear xs (initAcc st nextId)).details ++ [d] }
          (bulkLoop curYear ys (initAcc
            (bulkLoop curYear xs (initAcc st nextId)).store
            (bulkLoop curYear xs (initAcc st nextId)).nextId)) := by
    rw [hAll, hstep]
    exact bulkLoop_merge curYear ys _
  have hSansEq : bulkLoop curYear (xs ++ ys) (initAcc st nextId)
      = accMerge (bulkLoop curYear xs (initAcc st nextId))
          (bulkLoop curYear ys (initAcc
            (bulkLoop curYear xs (initAcc st nextId)).store
            (bulkLoop curYear xs (initAcc st nextId)).nextId)) := by
    rw [hSans]
    exact bulkLoop_merge curYear ys _
  refine ⟨?_, ?_, ?_, ?_, ?_, ?_, ?_, ?_, ?_, ?_⟩
  · rw [hAllEq, hSansEq]; simp [accMerge]
  · rw [hAllEq, hSansEq]; simp [accMerge]
  · rw [hAllEq, hSansEq]; simp [accMerge]
  · rw [hAllEq, hSansEq]; simp [accMerge]
  · rw [hAllEq, hSansEq]
    simp [accMerge]
    omega
  · rw [bulkLoop_detail_len]
    simp [initAcc, List.length_append]
    omega
  · exact bulkLoop_inv curYear (xs ++ bad :: ys) (initAcc st nextId) ⟨rfl, rfl, rfl⟩
  · rw [bulkLoop_total]
    simp [initAcc, List.length_append]
    omega
  · cases xs <;> rfl
  · cases xs <;> rfl

/-- Witness for C2: the batch [ok, malformed, ok] (the middle item fails the
numericGrade-range validator at save) yields 2 created, 1 error, 3 detail
entries and never aborts. -/
theorem bulkUpload_item_isolation_witness :
    bulkItemErrs 2025 (bulkLoop 2025 [payloadOK] (initAcc [] 0)).store
      (bulkLoop 2025 [payloadOK] (initAcc [] 0)).nextId badBulkItem = true ∧
    (bulkLoop 2025 ([payloadOK] ++ badBulkItem :: [payloadOK2]) (initAcc [] 0)).errors =
      (bulkLoop 2025 ([payloadOK] ++ [payloadOK2]) (initAcc [] 0)).errors + 1 ∧
    (bulkLoop 2025 ([payloadOK] ++ badBulkItem :: [payloadOK2]) (initAcc [] 0)).created =
      (bulkLoop 2025 ([payloadOK] ++ [payloadOK2]) (initAcc [] 0)).created ∧
    (bulkLoop 2025 ([payloadOK] ++ badBulkItem :: [payloadOK2]) (initAcc [] 0)).created = 2 ∧
    (bulkLoop 2025 ([payloadOK] ++ badBulkItem :: [payloadOK2]) (initAcc [] 0)).details.length = 3 ∧
    (bulkUploadRecords 2025 [] 0 (.arr ([payloadOK] ++ badBulkItem :: [payloadOK2]))).1.status = 200 := by
  have h := bulkUpload_item_isolation 2025 [] 0 [payloadOK] [payloadOK2] badBulkItem
    (by decide)
  exact ⟨by decide, h.2.2.2.2.1, h.2.2.1, by decide, by decide, h.2.2.2.2.2.2.2.2.1⟩
